import Mathlib

/-!
Shallow embedding of the exchange-rate caching and refresh subsystem of
`valutatrade_hub` (files `core/utils.py` and `infra/database.py`, plus the
parser-service collaborators `RatesStorage`, `RatesUpdater` and the API
clients, which are modelled from the specification because their source is
not part of the repository snapshot).

Timestamps are integers (seconds); rates are rationals; the JSON cache file
is an optional `Snapshot`; the per-user JSON files handled by
`DatabaseManager` are a keyed list of file contents.
-/

namespace ValutaTradeHub

/-- Exceptions that can escape the rate subsystem: `RateNotFoundError` and
`ApiRequestError` from `core/exceptions.py` (their constructors carry the
message string). -/
inductive Err where
  | rateNotFound (msg : String)
  | apiRequestError (msg : String)
  deriving Repr, DecidableEq

/-- One stored rate record of the cache file: `rate`, `updated_at`
(seconds), and the provider label. -/
structure RateRecord where
  rate : ℚ
  updated_at : Int
  src : String
  deriving Repr, DecidableEq

/-- The parsed cache file: pair-keyed records such as `"USD_EUR"`, the
`last_refresh` stamp, and the informational `source` label of the last
updater run. An absent JSON key is `none`. -/
structure Snapshot where
  records : List (String × RateRecord)
  last_refresh : Option Int
  source : Option String
  deriving Repr, DecidableEq

def emptySnapshot : Snapshot := ⟨[], none, none⟩

/-- The dict key `f"{a}_{b}"` used by the cache. -/
def pairKey (a b : String) : String := a ++ "_" ++ b

/-- `find_rate` from `core/utils.py`: direct key first, then the reverse
key inverted (keeping the stored `updated_at`), else `RateNotFoundError`. -/
def find_rate (rates : Snapshot) (a b : String) : Except Err (ℚ × Int) :=
  match rates.records.lookup (pairKey a b) with
  | some r => .ok (r.rate, r.updated_at)
  | none =>
    match rates.records.lookup (pairKey b a) with
    | some r => .ok (1 / r.rate, r.updated_at)
    | none => .error (.rateNotFound (a ++ "→" ++ b))

/-- One rate observation returned by a provider client:
`(from, to, rate, observed_at, source label)`. -/
structure Obs where
  cFrom : String
  cTo : String
  rate : ℚ
  observed_at : Int
  src : String
  deriving Repr, DecidableEq

/-- Replace the value at a key, or append the pair if the key is absent
(dict assignment `d[k] = v`). -/
def upsert {α : Type} (l : List (String × α)) (k : String) (v : α) :
    List (String × α) :=
  match l with
  | [] => [(k, v)]
  | (k2, v2) :: rest => if k2 = k then (k, v) :: rest else (k2, v2) :: upsert rest k v

/-- Merge one observation into the record table: overwrite the same-key
entry, preserve every other entry. -/
def applyObs (recs : List (String × RateRecord)) (o : Obs) :
    List (String × RateRecord) :=
  upsert recs (pairKey o.cFrom o.cTo) ⟨o.rate, o.observed_at, o.src⟩

/-- A provider client, reduced to the outcome of its `fetch()`:
`none` models a `SourceUnavailable` failure, `some l` a successful snapshot
of observations. -/
def Client : Type := Option (List Obs)

/-- Observations of all successful fetches, in configured order (a failing
source is logged and skipped, never aborting the cycle). -/
def fetched (clients : List Client) : List Obs :=
  (clients.filterMap id).flatten

/-- Modelled from the spec: `RatesStorage.load_rates` of the parser
service, whose source is not in the repository snapshot. Per §4.2, `load`
returns an empty snapshot (no records, no `last_refresh`) if no cache
exists yet and transparently creates the file in that case; otherwise it
returns the file content. The second component is the file after the call. -/
def load_rates (file : Option Snapshot) : Snapshot × Option Snapshot :=
  match file with
  | none => (emptySnapshot, some emptySnapshot)
  | some s => (s, some s)

/-- Modelled from the spec: `RatesUpdater.run_update` of the parser
service, whose source is not in the repository snapshot. Per §4.3 it
fetches from each client in order (failures skipped), merges all fetched
observations into the existing snapshot (same-key overwrite, unrelated
entries preserved), stamps `last_refresh`, persists via the store and
returns the update count; per the failure policy of §4.3 and §8, the
returned count is zero exactly when zero observations were merged, and in
that case the cache file is left unchanged (no partial or empty
overwrite). -/
def run_update (clients : List Client) (file : Option Snapshot) (now : Int) :
    Nat × Option Snapshot :=
  let obs := fetched clients
  if obs.isEmpty then (0, file)
  else
    let snap := (load_rates file).1
    (obs.length, some ⟨obs.foldl applyObs snap.records, some now, some "updater"⟩)

/-- A Python exception escaping the client-construction / updater-run block
of `update_rates`: either an `ApiRequestError` or any other exception. -/
inductive PyExc where
  | api (msg : String)
  | other (msg : String)
  deriving Repr, DecidableEq

/-- The environment of one `update_rates` call: an exception raised inside
the `try` block before the count is obtained (`none` when the block runs to
completion), the two clients' fetch outcomes, and the current time. -/
structure UpdEnv where
  setupExc : Option PyExc
  coinGecko : Client
  exchangeRateApi : Client
  now : Int

/-- Client selection of `update_rates`: `"coingecko"` or `"exchangerate"`
picks that one client, anything else both in that order. -/
def selectClients (env : UpdEnv) (source : Option String) : List Client :=
  if source = some "coingecko" then [env.coinGecko]
  else if source = some "exchangerate" then [env.exchangeRateApi]
  else [env.coinGecko, env.exchangeRateApi]

/-- `update_rates` from `core/utils.py`: run the updater over the selected
clients; re-raise an `ApiRequestError` from the block unchanged, wrap any
other exception into `ApiRequestError`, and raise `ApiRequestError` when
the update count is zero. Returns the raised error (with the cache file at
that point) or, on success, the written cache file. -/
def update_rates (env : UpdEnv) (source : Option String) (file : Option Snapshot) :
    Except Err Unit × Option Snapshot :=
  match env.setupExc with
  | some (.api m) => (.error (.apiRequestError m), file)
  | some (.other m) =>
    (.error (.apiRequestError ("Не удалось обновить курсы: " ++ m)), file)
  | none =>
    let r := run_update (selectClients env source) file env.now
    if r.1 = 0 then
      (.error (.apiRequestError "Не удалось получить ни одного курса от всех клиентов."),
       r.2)
    else (.ok (), r.2)

/-- The environment of one `get_exchange_rate` call: the updater
environment of the `i`-th `update_rates` call made during this call, the
current time, and the configured `RATES_TTL_SECONDS` (default 3600,
supplied by `SettingsLoader`, whose source is not in the snapshot). -/
structure GetEnv where
  upd : Nat → UpdEnv
  now : Int
  ttl : Int

/-- The outcome of one `get_exchange_rate` call: the returned pair or the
escaping exception, the cache file after the call, and how many times
`update_rates` was called (instrumentation). -/
structure GetResult where
  result : Except Err (ℚ × Int)
  cache : Option Snapshot
  refreshes : Nat
  deriving Repr

/-- The emptiness test of `get_exchange_rate`:
`if not rates or "last_refresh" not in rates`. -/
def emptyTrigger (s : Snapshot) : Bool :=
  (s.records.isEmpty && s.last_refresh.isNone && s.source.isNone) || s.last_refresh.isNone

/-- The TTL stage of `get_exchange_rate`: if the found record's age exceeds
the TTL, force one more refresh, reload and redo the lookup, returning
whatever is then found (or the escaping error); otherwise answer from the
record in hand. -/
def stageTTL (env : GetEnv) (fc tc : String) (rate : ℚ) (updated_at : Int)
    (cache : Option Snapshot) (n : Nat) : GetResult :=
  if env.now - updated_at > env.ttl then
    match update_rates (env.upd n) none cache with
    | (.error e, c) => ⟨.error e, c, n + 1⟩
    | (.ok _, c) =>
      let p := load_rates c
      match find_rate p.1 fc tc with
      | .ok v => ⟨.ok v, p.2, n + 1⟩
      | .error e => ⟨.error e, p.2, n + 1⟩
  else ⟨.ok (rate, updated_at), cache, n⟩

/-- The lookup stage of `get_exchange_rate`: try `find_rate`; on
`RateNotFoundError`, force one refresh, reload and retry exactly once, an
error of the retry escaping to the caller; a found record goes on to the
TTL stage. -/
def stageFind (env : GetEnv) (fc tc : String) (rates : Snapshot)
    (cache : Option Snapshot) (n : Nat) : GetResult :=
  match find_rate rates fc tc with
  | .ok v => stageTTL env fc tc v.1 v.2 cache n
  | .error _ =>
    match update_rates (env.upd n) none cache with
    | (.error e, c) => ⟨.error e, c, n + 1⟩
    | (.ok _, c) =>
      let p := load_rates c
      match find_rate p.1 fc tc with
      | .ok v => stageTTL env fc tc v.1 v.2 p.2 (n + 1)
      | .error e => ⟨.error e, p.2, n + 1⟩

/-- The initial stage of `get_exchange_rate`: load the cache; if it is
empty or has no `last_refresh`, force a first refresh and reload, an error
escaping to the caller. -/
def stageEmpty (env : GetEnv) (fc tc : String) (cache0 : Option Snapshot) :
    GetResult :=
  let p := load_rates cache0
  if emptyTrigger p.1 then
    match update_rates (env.upd 0) none p.2 with
    | (.error e, c) => ⟨.error e, c, 1⟩
    | (.ok _, c) =>
      let q := load_rates c
      stageFind env fc tc q.1 q.2 1
  else stageFind env fc tc p.1 p.2 0

/-- The body of `get_exchange_rate` after both currency codes have been
upper-cased. -/
def resolveUpper (env : GetEnv) (cache0 : Option Snapshot) (fc tc : String) :
    GetResult :=
  if fc = tc then ⟨.ok (1, env.now), cache0, 0⟩ else stageEmpty env fc tc cache0

/-- `get_exchange_rate` from `core/utils.py`: upper-case both codes, answer
`(1.0, now)` for identical codes, otherwise run the empty-cache, lookup and
TTL stages over the cache file. -/
def get_exchange_rate (env : GetEnv) (cache0 : Option Snapshot)
    (from_currency to_currency : String) : GetResult :=
  resolveUpper env cache0 from_currency.toUpper to_currency.toUpper

/-- `DatabaseManager.save` from `infra/database.py`: whole-file rewrite of
`path` with `data`. The file system is a keyed list of parsed file
contents. -/
def dbSave {α : Type} (fs : List (String × List α)) (path : String)
    (data : List α) : List (String × List α) :=
  upsert fs path data

/-- `DatabaseManager.load` from `infra/database.py`: if the file does not
exist, create it with empty content and raise `FileNotFoundError`
(modelled as the `Except` error); otherwise return the parsed content.
The second component is the file system after the call. -/
def dbLoad {α : Type} (fs : List (String × List α)) (path : String) :
    Except Unit (List α) × List (String × List α) :=
  match fs.lookup path with
  | none => (.error (), dbSave fs path [])
  | some d => (.ok d, fs)

/-- `load_json` from `core/utils.py`: `DatabaseManager().load(path)` with
`FileNotFoundError` caught and turned into `[]`. -/
def load_json {α : Type} (fs : List (String × List α)) (path : String) :
    List α × List (String × List α) :=
  match dbLoad fs path with
  | (.ok d, fs2) => (d, fs2)
  | (.error _, fs2) => ([], fs2)

/-! Concrete fixtures used by counterexamples and witnesses. -/

/-- Updater environment whose only successful client reports a very old
`USD→EUR` observation. -/
def updEnvStale : UpdEnv := ⟨none, some [⟨"USD", "EUR", 2, -9999, "coingecko"⟩], none, 0⟩

/-- Resolver environment built on `updEnvStale`, clock at 0, TTL 3600. -/
def envStale : GetEnv := ⟨fun _ => updEnvStale, 0, 3600⟩

/-- Updater environment in which both clients fail (`SourceUnavailable`). -/
def updEnvFail : UpdEnv := ⟨none, none, none, 7⟩

/-- Updater environment in which client construction raises a
non-`ApiRequestError` exception. -/
def updEnvExc : UpdEnv := ⟨some (.other "boom"), none, none, 0⟩

/-- A snapshot holding a single fresh `USD→EUR` record. -/
def snapUsdEur : Snapshot := ⟨[("USD_EUR", ⟨2, 0, "coingecko"⟩)], some 0, some "u"⟩

/-- Resolver environment whose clock makes `snapUsdEur` aged 3601 s. -/
def envAged3601 : GetEnv := ⟨fun _ => updEnvFail, 3601, 3600⟩

/-- Resolver environment whose clock makes `snapUsdEur` aged 3599 s. -/
def envAged3599 : GetEnv := ⟨fun _ => updEnvFail, 3599, 3600⟩

/-- A snapshot holding only a `BTC→USD` record. -/
def snapBtcUsd : Snapshot := ⟨[("BTC_USD", ⟨3, 0, "coingecko"⟩)], some 0, some "u"⟩

/-- Updater environment whose only successful client reports `BTC→USD`. -/
def updEnvBtc : UpdEnv := ⟨none, some [⟨"BTC", "USD", 3, 0, "coingecko"⟩], none, 0⟩

/-- Resolver environment built on `updEnvBtc`. -/
def envBtc : GetEnv := ⟨fun _ => updEnvBtc, 10, 3600⟩

end ValutaTradeHub

namespace ValutaTradeHub

/-! Helper lemmas shared by the claim theorems. -/

theorem char_toUpper_eq (c : Char) :
    c.toUpper = if c.toNat ≥ 97 ∧ c.toNat ≤ 122 then Char.ofNat (c.toNat - 32) else c := rfl

theorem char_toUpper_idem (c : Char) : c.toUpper.toUpper = c.toUpper := by
  by_cases h : c.toNat ≥ 97 ∧ c.toNat ≤ 122
  · have h1 : c.toUpper = Char.ofNat (c.toNat - 32) := by
      rw [char_toUpper_eq, if_pos h]
    rw [h1]
    obtain ⟨ha, hb⟩ := h
    set n := c.toNat with hn
    interval_cases n <;> decide
  · have h1 : c.toUpper = c := by rw [char_toUpper_eq, if_neg h]
    rw [h1, h1]

theorem toUpper_idem (s : String) : s.toUpper.toUpper = s.toUpper := by
  simp [String.toUpper, String.map_eq, List.map_map, Function.comp_def, char_toUpper_idem]

theorem find_rate_error_shape (s : Snapshot) (a b : String) (e : Err)
    (h : find_rate s a b = .error e) : e = .rateNotFound (a ++ "→" ++ b) := by
  unfold find_rate at h
  rcases h1 : s.records.lookup (pairKey a b) with _ | r
  · rw [h1] at h
    rcases h2 : s.records.lookup (pairKey b a) with _ | r
    · rw [h2] at h
      cases h
      rfl
    · rw [h2] at h
      cases h
  · rw [h1] at h
    cases h

theorem upsert_lookup_self {α : Type} (l : List (String × α)) (k : String) (v : α) :
    (upsert l k v).lookup k = some v := by
  induction l with
  | nil => simp [upsert, List.lookup]
  | cons p rest ih =>
    obtain ⟨k2, v2⟩ := p
    by_cases h : k2 = k
    · simp [upsert, h, List.lookup]
    · simp only [upsert, if_neg h, List.lookup]
      have hne : (k == k2) = false := by
        simp [beq_eq_false_iff_ne]
        exact fun hk => h hk.symm
      rw [hne]
      exact ih

theorem stageTTL_refreshes_le (env : GetEnv) (fc tc : String) (r : ℚ) (u : Int)
    (c : Option Snapshot) (n : Nat) :
    (stageTTL env fc tc r u c n).refreshes ≤ n + 1 := by
  unfold stageTTL
  split
  · split
    · simp
    · dsimp only
      split <;> simp
  · simp

theorem stageTTL_refreshes_stale (env : GetEnv) (fc tc : String) (r : ℚ) (u : Int)
    (c : Option Snapshot) (n : Nat) (h : env.now - u > env.ttl) :
    (stageTTL env fc tc r u c n).refreshes = n + 1 := by
  unfold stageTTL
  rw [if_pos h]
  split
  · simp
  · dsimp only
    split <;> simp

theorem stageTTL_fresh (env : GetEnv) (fc tc : String) (r : ℚ) (u : Int)
    (c : Option Snapshot) (n : Nat) (h : ¬ env.now - u > env.ttl) :
    stageTTL env fc tc r u c n = ⟨.ok (r, u), c, n⟩ := by
  unfold stageTTL
  rw [if_neg h]

theorem stageFind_refreshes_le (env : GetEnv) (fc tc : String) (rates : Snapshot)
    (c : Option Snapshot) (n : Nat) :
    (stageFind env fc tc rates c n).refreshes ≤ n + 2 := by
  unfold stageFind
  split
  · exact le_trans (stageTTL_refreshes_le _ _ _ _ _ _ _) (Nat.le_succ _)
  · split
    · simp
    · dsimp only
      split
      · exact stageTTL_refreshes_le _ _ _ _ _ _ _
      · simp

theorem stageEmpty_refreshes_le (env : GetEnv) (fc tc : String)
    (cache0 : Option Snapshot) :
    (stageEmpty env fc tc cache0).refreshes ≤ 3 := by
  unfold stageEmpty
  dsimp only
  split
  · split
    · simp
    · exact stageFind_refreshes_le _ _ _ _ _ 1
  · exact le_trans (stageFind_refreshes_le _ _ _ _ _ 0) (by omega)

theorem resolveUpper_eq_self (env : GetEnv) (c : Option Snapshot) (s : String) :
    resolveUpper env c s s = ⟨.ok (1, env.now), c, 0⟩ := by
  simp [resolveUpper]

/-! Claim theorems. -/

/-- C1 (counterexample): a single `get_exchange_rate` call can perform two
forced refresh cycles — an empty cache triggers one, and the record it
fetches is already past the TTL, triggering another — so "at most one
forced refresh per call" fails. -/
theorem C1_counterexample :
    ¬ (get_exchange_rate envStale none "USD" "EUR").refreshes ≤ 1 := by
  have h : (get_exchange_rate envStale none "USD" "EUR").refreshes = 2 := by
    simp [get_exchange_rate, String.toUpper, String.map_eq]
    rfl
  rw [h]
  decide

/-- C1 (amended): every `get_exchange_rate` call performs at most one
forced refresh per trigger stage — empty cache, pair miss, TTL expiry —
and hence at most three calls to `update_rates` in total; there is no
unbounded retry loop. -/
theorem C1_refresh_bound (env : GetEnv) (cache0 : Option Snapshot)
    (f t : String) :
    (get_exchange_rate env cache0 f t).refreshes ≤ 3 := by
  unfold get_exchange_rate resolveUpper
  split
  · simp
  · exact stageEmpty_refreshes_le _ _ _ _

/-- C3: when pair `(a, b)` is stored with record `rec` and `(b, a)` is not
stored, `find_rate` resolves `(b, a)` to the inverse rate `1 / rec.rate`
together with the stored record's own `updated_at`, not the current
time. -/
theorem C3_inverse_rate (s : Snapshot) (a b : String) (rec : RateRecord)
    (hd : s.records.lookup (pairKey a b) = some rec)
    (hr : s.records.lookup (pairKey b a) = none) :
    find_rate s b a = .ok (1 / rec.rate, rec.updated_at) := by
  unfold find_rate
  rw [hr, hd]

/-- C3 witness: on a snapshot storing `USD→EUR` at rate 2 with timestamp 5,
resolving `EUR→USD` yields `(1/2, 5)`. -/
theorem C3_witness :
    find_rate snapUsdEur "EUR" "USD"
      = .ok (1 / (2 : ℚ), (0 : Int)) :=
  C3_inverse_rate snapUsdEur "USD" "EUR" ⟨2, 0, "coingecko"⟩ rfl rfl

/-- C6: for every string `x`, `get_exchange_rate x x` answers `(1, now)`
at once, with the cache file untouched and zero refresh cycles. -/
theorem C6_identity (env : GetEnv) (cache0 : Option Snapshot) (x : String) :
    get_exchange_rate env cache0 x x = ⟨.ok (1, env.now), cache0, 0⟩ := by
  unfold get_exchange_rate
  exact resolveUpper_eq_self env cache0 x.toUpper

/-- C8: when both the direct key `(a, b)` and the reverse key `(b, a)` are
stored, `find_rate a b` returns the directly stored record's rate and
timestamp — direct lookup takes precedence over inversion. -/
theorem C8_direct_precedence (s : Snapshot) (a b : String)
    (rec recRev : RateRecord)
    (hd : s.records.lookup (pairKey a b) = some rec)
    (hr : s.records.lookup (pairKey b a) = some recRev) :
    find_rate s a b = .ok (rec.rate, rec.updated_at) := by
  unfold find_rate
  rw [hd]

/-- C8 witness: with both `USD_EUR` (rate 2) and `EUR_USD` (rate 4)
stored, `find_rate "USD" "EUR"` returns the direct rate 2, not `1/4`. -/
theorem C8_witness :
    find_rate ⟨[("USD_EUR", ⟨2, 5, "x"⟩), ("EUR_USD", ⟨4, 9, "y"⟩)], some 0, none⟩
      "USD" "EUR" = .ok ((2 : ℚ), (5 : Int)) :=
  C8_direct_precedence _ "USD" "EUR" ⟨2, 5, "x"⟩ ⟨4, 9, "y"⟩ rfl rfl

/-- C9: `get_exchange_rate` is case-insensitive in its currency-code
arguments — calling it on `f, t` is identical to calling it on the
upper-cased codes — and two codes equal up to case resolve to
`(1, now)` with no cache access. -/
theorem C9_case_insensitive (env : GetEnv) (cache0 : Option Snapshot)
    (f t : String) :
    get_exchange_rate env cache0 f t
        = get_exchange_rate env cache0 f.toUpper t.toUpper ∧
    (f.toUpper = t.toUpper →
      get_exchange_rate env cache0 f t = ⟨.ok (1, env.now), cache0, 0⟩) := by
  constructor
  · unfold get_exchange_rate
    rw [toUpper_idem, toUpper_idem]
  · intro h
    unfold get_exchange_rate
    rw [h]
    exact resolveUpper_eq_self env cache0 t.toUpper

/-- C9 witness: `get_exchange_rate "usd" "USD"` — two codes differing only
in case — answers `(1, now)` with no cache access and no refresh. -/
theorem C9_witness :
    get_exchange_rate envBtc none "usd" "USD"
      = ⟨.ok (1, (10 : Int)), none, 0⟩ := by
  apply (C9_case_insensitive envBtc none "usd" "USD").2
  show ("usd" : String).toUpper = ("USD" : String).toUpper
  simp [String.toUpper, String.map_eq]

/-- C2: in one `update_rates` run whose `try` block completes, if every
selected source fails (zero observations fetched) the call raises
`ApiRequestError` — the `NoRatesAvailable` condition — and the cache file
is exactly what it was before; if the sources contribute at least one
observation, no error is raised. -/
theorem C2_all_sources_fail (env : UpdEnv) (source : Option String)
    (file : Option Snapshot) (hsetup : env.setupExc = none) :
    (fetched (selectClients env source) = [] →
      update_rates env source file =
        (.error (.apiRequestError
          "Не удалось получить ни одного курса от всех клиентов."), file)) ∧
    (fetched (selectClients env source) ≠ [] →
      (update_rates env source file).1 = .ok ()) := by
  constructor
  · intro hf
    simp [update_rates, hsetup, run_update, hf]
  · intro hf
    have hne : (fetched (selectClients env source)).isEmpty = false := by
      simp [List.isEmpty_iff, hf]
    simp [update_rates, hsetup, run_update, hne, List.length_eq_zero, hf]

/-- C2 witness: with both clients unavailable, `update_rates` raises the
all-sources-failed `ApiRequestError` and leaves the cache file unchanged;
with one observation available, it succeeds. -/
theorem C2_witness :
    update_rates updEnvFail none (some snapUsdEur) =
      (.error (.apiRequestError
        "Не удалось получить ни одного курса от всех клиентов."),
       some snapUsdEur) ∧
    (update_rates updEnvBtc none (some snapUsdEur)).1 = .ok () :=
  ⟨(C2_all_sources_fail updEnvFail none (some snapUsdEur) rfl).1 rfl,
   (C2_all_sources_fail updEnvBtc none (some snapUsdEur) rfl).2 (by decide)⟩

/-- C10: every error escaping `update_rates` is an `ApiRequestError`: an
`ApiRequestError` from the block is re-raised as itself, any other
exception is wrapped into one, and the zero-count condition raises one, so
no other exception type reaches the caller. -/
theorem C10_api_error_only (env : UpdEnv) (source : Option String)
    (file : Option Snapshot) (e : Err)
    (h : (update_rates env source file).1 = .error e) :
    ∃ m, e = .apiRequestError m := by
  rcases hs : env.setupExc with _ | exc
  · rw [update_rates, hs] at h
    dsimp only at h
    split at h
    · cases h
      exact ⟨_, rfl⟩
    · cases h
  · rcases exc with m | m
    · rw [update_rates, hs] at h
      cases h
      exact ⟨_, rfl⟩
    · rw [update_rates, hs] at h
      cases h
      exact ⟨_, rfl⟩

/-- C10 witness: a non-`ApiRequestError` exception raised during client
construction reaches the caller wrapped as an `ApiRequestError`. -/
theorem C10_witness :
    ∃ m, Err.apiRequestError ("Не удалось обновить курсы: " ++ "boom")
      = Err.apiRequestError m :=
  C10_api_error_only updEnvExc none none
    (Err.apiRequestError ("Не удалось обновить курсы: " ++ "boom")) rfl

/-- C5: loading through `load_json` when the file does not exist returns
the empty content `[]` to the caller — never a not-found error — and
transparently creates the file (the inner `DatabaseManager.load` writes
the empty file before raising the `FileNotFoundError` that `load_json`
absorbs). -/
theorem C5_load_missing_file {α : Type} (fs : List (String × List α))
    (path : String) (h : fs.lookup path = none) :
    load_json fs path = ([], dbSave fs path []) ∧
    (dbSave fs path []).lookup path = some [] := by
  constructor
  · simp [load_json, dbLoad, h]
  · exact upsert_lookup_self fs path []

/-- C5 witness: loading a missing path from a one-file file system returns
`[]` and creates the path with empty content. -/
theorem C5_witness :
    load_json [("users.json", [(3 : Nat)])] "rates.json"
      = ([], [("users.json", [3]), ("rates.json", [])]) ∧
    (dbSave [("users.json", [(3 : Nat)])] "rates.json" []).lookup "rates.json"
      = some [] :=
  C5_load_missing_file [("users.json", [(3 : Nat)])] "rates.json" rfl

theorem resolve_found_eq_stageTTL (env : GetEnv) (snap : Snapshot)
    (f t : String) (r : ℚ) (u : Int)
    (hne : f.toUpper ≠ t.toUpper)
    (hcache : emptyTrigger snap = false)
    (hfind : find_rate snap f.toUpper t.toUpper = .ok (r, u)) :
    get_exchange_rate env (some snap) f t
      = stageTTL env f.toUpper t.toUpper r u (some snap) 0 := by
  unfold get_exchange_rate resolveUpper
  rw [if_neg hne]
  simp only [stageEmpty, load_rates, hcache, Bool.false_eq_true, if_false,
    stageFind, hfind]

/-- C4: with TTL 3600, a cache whose lookup finds the queried record aged
3601 s makes `get_exchange_rate` perform exactly one forced refresh before
answering or failing, while at age 3599 s it answers the cached record
directly with no refresh. -/
theorem C4_ttl_boundary (env : GetEnv) (snap : Snapshot) (f t : String)
    (r : ℚ) (u : Int)
    (httl : env.ttl = 3600)
    (hne : f.toUpper ≠ t.toUpper)
    (hcache : emptyTrigger snap = false)
    (hfind : find_rate snap f.toUpper t.toUpper = .ok (r, u)) :
    (env.now - u = 3601 →
      (get_exchange_rate env (some snap) f t).refreshes = 1) ∧
    (env.now - u = 3599 →
      (get_exchange_rate env (some snap) f t).refreshes = 0 ∧
      (get_exchange_rate env (some snap) f t).result = .ok (r, u)) := by
  have hmain := resolve_found_eq_stageTTL env snap f t r u hne hcache hfind
  constructor
  · intro hage
    rw [hmain]
    exact stageTTL_refreshes_stale env f.toUpper t.toUpper r u (some snap) 0
      (by omega)
  · intro hage
    rw [hmain,
      stageTTL_fresh env f.toUpper t.toUpper r u (some snap) 0 (by omega)]
    exact ⟨rfl, rfl⟩

/-- C4 witness: on a snapshot storing `USD→EUR` stamped at 0, the call at
time 3601 performs exactly one refresh, and the call at time 3599 performs
none and answers `(2, 0)` from the cache. -/
theorem C4_witness :
    (get_exchange_rate envAged3601 (some snapUsdEur) "USD" "EUR").refreshes = 1 ∧
    ((get_exchange_rate envAged3599 (some snapUsdEur) "USD" "EUR").refreshes = 0 ∧
     (get_exchange_rate envAged3599 (some snapUsdEur) "USD" "EUR").result
       = .ok ((2 : ℚ), (0 : Int))) := by
  have hu : ("USD" : String).toUpper = "USD" := by
    simp [String.toUpper, String.map_eq]
  have he : ("EUR" : String).toUpper = "EUR" := by
    simp [String.toUpper, String.map_eq]
  constructor
  · exact (C4_ttl_boundary envAged3601 snapUsdEur "USD" "EUR" 2 0 rfl
      (by rw [hu, he]; decide) rfl (by rw [hu, he]; rfl)).1 rfl
  · exact (C4_ttl_boundary envAged3599 snapUsdEur "USD" "EUR" 2 0 rfl
      (by rw [hu, he]; decide) rfl (by rw [hu, he]; rfl)).2 rfl

/-- C7: with a loaded, non-empty cache in which the pair is absent in both
directions, `get_exchange_rate` forces exactly one refresh; if the pair is
still not derivable from the reloaded snapshot, the call fails with the
`RateNotFoundError` of that second lookup — after exactly one refresh,
with no further refresh or loop. -/
theorem C7_miss_after_refresh (env : GetEnv) (snap : Snapshot) (f t : String)
    (c1 : Option Snapshot) (e1 e2 : Err)
    (hne : f.toUpper ≠ t.toUpper)
    (hcache : emptyTrigger snap = false)
    (hmiss : find_rate snap f.toUpper t.toUpper = .error e1)
    (hupd : update_rates (env.upd 0) none (some snap) = (.ok (), c1))
    (hmiss2 : find_rate (load_rates c1).1 f.toUpper t.toUpper = .error e2) :
    get_exchange_rate env (some snap) f t
      = ⟨.error e2, (load_rates c1).2, 1⟩ ∧
    ∃ m, e2 = .rateNotFound m := by
  constructor
  · have hl : load_rates (some snap) = (snap, some snap) := rfl
    unfold get_exchange_rate resolveUpper
    rw [if_neg hne]
    simp only [stageEmpty, hl, hcache, Bool.false_eq_true, if_false,
      stageFind, hmiss, hupd, hmiss2]
  · exact ⟨_, find_rate_error_shape _ _ _ _ hmiss2⟩

/-- C7 witness: a cache holding only `BTC_USD`, refreshed by a provider
that again reports only `BTC→USD`, makes `get_exchange_rate "USD" "EUR"`
fail with `RateNotFoundError` after exactly one refresh. -/
theorem C7_witness :
    get_exchange_rate envBtc (some snapBtcUsd) "USD" "EUR"
      = ⟨.error (.rateNotFound "USD→EUR"),
         some ⟨[("BTC_USD", ⟨3, 0, "coingecko"⟩)], some 0, some "updater"⟩, 1⟩ ∧
    ∃ m, (Err.rateNotFound "USD→EUR") = .rateNotFound m := by
  have hu : ("USD" : String).toUpper = "USD" := by
    simp [String.toUpper, String.map_eq]
  have he : ("EUR" : String).toUpper = "EUR" := by
    simp [String.toUpper, String.map_eq]
  exact C7_miss_after_refresh envBtc snapBtcUsd "USD" "EUR"
    (some ⟨[("BTC_USD", ⟨3, 0, "coingecko"⟩)], some 0, some "updater"⟩)
    (.rateNotFound "USD→EUR") (.rateNotFound "USD→EUR")
    (by rw [hu, he]; decide) rfl (by rw [hu, he]; rfl) rfl (by rw [hu, he]; rfl)

end ValutaTradeHub
